import Mathlib

/-!
Verification development for the solutions-architect workflow repository.

The file shallowly embeds the two core modules:
* `src/tools/gateway_client.py` — tool discovery (paginated `list_tools`) and
  tool invocation (`call_tool`, including reply-envelope normalization);
* `src/workflow/orchestrator.py` — the LangGraph workflow engine
  (`WorkflowState`, the eight step handlers, the refinement loop, `run`).

External collaborators (the MCP transport, the agents, the session store
backend, Python's `json` module) are modelled as explicit parameters; the
control flow, branching, store reads/writes and the strings appended to
`messages` / `errors` are translated line by line from the source.
-/

/-- Minimal JSON value universe; stands for the values produced by a
successful `json.loads` in the Python source. -/
inductive Json where
  | null
  | bool (b : Bool)
  | num (n : Int)
  | str (s : String)
  | arr (elems : List Json)
  | obj (fields : List (String × Json))
deriving Repr, Inhabited

/-- One element of a reply's `content` list.  The Python code only ever asks
whether the element carries a `text` attribute / key, so the embedding keeps
exactly that distinction. -/
inductive ContentItem where
  | withText (text : String)
  | withoutText
deriving Repr, DecidableEq

/-- A Python mapping as inspected by `call_tool`'s dict branch: the code looks
only at the optional `content` list and at the presence of an `error` key;
`error` carries the error payload when present. -/
structure PyDict where
  content : Option (List ContentItem)
  error : Option String
deriving Repr, DecidableEq

/-- The value returned by `mcp_client.call_tool_sync`, as discriminated by
`call_tool` (gateway_client.py lines 159-200): a structured object exposing a
`content` attribute, a Python mapping, or anything else (`raw` keeps the
`str(result)` rendering used by the fallback branch). -/
inductive MCPResult where
  | obj (content : List ContentItem)
  | dict (d : PyDict)
  | raw (s : String)
deriving Repr, DecidableEq

/-- What `call_tool` returns to its caller (when it does not raise):
a decoded JSON payload, the explicit decode-error mapping
(error = Failed to parse response JSON, with `raw_text` retained), the dict
returned as-is (both the `error`-key case and the unparseable-dict case of the
source return the dict itself), or the unexpected-format error mapping that
retains the raw payload. -/
inductive ToolResponse where
  | parsed (j : Json)
  | decodeErrorResult (raw_text : String)
  | dictResult (d : PyDict)
  | unexpectedFormat (raw : MCPResult)
deriving Repr

/-- Reply normalization of `GatewayClient.call_tool`
(gateway_client.py lines 159-200), parameterized by the JSON decoder
(`json.loads`; `Option.none` models a raised `json.JSONDecodeError`).
`Except.error t` models an exception escaping `call_tool`: the outer handler
(lines 202-204) logs and re-raises.  Note that the object branch (lines
161-167) calls `json.loads` with no `try`, so a decode failure there is
re-raised, while the dict branch (lines 181-187) catches it and returns the
decode-error mapping. -/
def normalize_reply (decode : String → Option Json) : MCPResult → Except String ToolResponse
  | MCPResult.obj content =>
    match content with
    | ContentItem.withText text :: _ =>
      match decode text with
      | some j => Except.ok (ToolResponse.parsed j)
      | Option.none => Except.error text
    | _ => Except.ok (ToolResponse.unexpectedFormat (MCPResult.obj content))
  | MCPResult.dict d =>
    match d.content with
    | some (ContentItem.withText text :: _) =>
      match decode text with
      | some j => Except.ok (ToolResponse.parsed j)
      | Option.none => Except.ok (ToolResponse.decodeErrorResult text)
    | _ => Except.ok (ToolResponse.dictResult d)
  | MCPResult.raw s => Except.ok (ToolResponse.unexpectedFormat (MCPResult.raw s))

/-- The invocation record sent to the gateway by `call_tool_sync`
(gateway_client.py lines 152-156). -/
structure ToolInvocation where
  tool_use_id : String
  name : String
  arguments : List (String × Json)

/-- `GatewayClient.call_tool` (gateway_client.py lines 118-204): mangles the
logical tool name into the wire identifier `"{name}___{name}"` (line 137),
invokes the gateway (modelled by `server`) with that identifier, and
normalizes the reply. -/
def call_tool (server : ToolInvocation → MCPResult) (decode : String → Option Json)
    (tool_use_id : String) (tool_name : String) (arguments : List (String × Json)) :
    Except String ToolResponse :=
  let gateway_tool_name := tool_name ++ "___" ++ tool_name
  normalize_reply decode
    (server { tool_use_id := tool_use_id, name := gateway_tool_name, arguments := arguments })

/-- One page of the paginated tool-discovery reply
(`list_tools_sync` result: the listed tools plus an optional token). -/
structure ToolPage where
  tools : List String
  pagination_token : Option String
deriving Repr, DecidableEq

/-- Fuel-indexed unfolding of the `while more_tools` loop of
`GatewayClient.list_tools` (gateway_client.py lines 101-116).  `replies i` is
the page the gateway sends for the i-th request of this call; the loop stops
exactly when a page carries no token (the token's value is otherwise unused
by the loop), and `Option.none` means the loop has not finished within `fuel`
iterations. -/
def list_tools_fuel (replies : Nat → ToolPage) : Nat → Nat → List String → Option (List String)
  | _, 0, _ => Option.none
  | i, Nat.succ fuel, acc =>
    let page := replies i
    let acc2 := acc ++ page.tools
    match page.pagination_token with
    | Option.none => some acc2
    | some _ => list_tools_fuel replies (i + 1) fuel acc2

/-- The loop of `list_tools` never finishes, whatever iteration bound it is
given: no fuel suffices from any loop state. -/
def list_tools_diverges (replies : Nat → ToolPage) : Prop :=
  ∀ fuel i acc, list_tools_fuel replies i fuel acc = Option.none

/-- A gateway that answers every discovery request with the same page and the
same (non-advancing) pagination token. -/
def nonadvancing_replies : Nat → ToolPage :=
  fun _ => { tools := ["toolA"], pagination_token := some "tok" }

/-- `SystemRequirements` (system_requirements.py): a pydantic record; for the
orchestrator only its identity matters (it is saved to and loaded from the
session store), so the embedding keeps a representative field set. -/
structure SystemRequirements where
  functional_requirements : List String
  project_summary : String
deriving Repr, DecidableEq

/-- `ArchitectureOption` (design_agent.py line 33): a design option dict; the
orchestrator reads only its `name` key (orchestrator.py line 208), the rest of
the pydantic fields are carried opaquely. -/
structure ArchitectureOption where
  name : String
  fields : List (String × String)
deriving Repr, DecidableEq

/-- `CompareAgentOutput` (compare_agent.py line 50): the orchestrator reads
only `recommended_option`; the remaining comparison payload is carried
opaquely. -/
structure CompareAgentOutput where
  recommended_option : String
  fields : List (String × String)
deriving Repr, DecidableEq

/-- The `refinement_request` dict stored in the session store and read by
`_apply_refinements` (orchestrator.py lines 239-256): `feedback` and
`focus_area` keys plus the `processed` mark (`refinement_request.get("processed")`;
a missing key reads as false). -/
structure RefinementRequest where
  feedback : String
  focus_area : Option String
  processed : Bool
deriving Repr, DecidableEq

/-- A Python value held in the session store.  `pyNone` is Python's `None`
(what a step receives when it loads a key that was never saved, and what
`_wait_for_selection` may itself save under `selected_option`). -/
inductive Value where
  | pyNone
  | str (s : String)
  | reqs (r : SystemRequirements)
  | opts (l : List ArchitectureOption)
  | opt (o : ArchitectureOption)
  | comp (c : CompareAgentOutput)
  | refReq (r : RefinementRequest)
  | refRes (refined_architecture : String) (summary : String)
  | plan (p : List (String × String))
deriving Repr, DecidableEq

/-- Python truthiness (`if not selected_option`, `if refinement_request`) for
the store values above: `None` and the empty string / empty list are falsy,
records (non-empty dicts in the source) are truthy. -/
def truthy : Value → Bool
  | Value.pyNone => false
  | Value.str s => !s.isEmpty
  | Value.opts l => !l.isEmpty
  | _ => true

/-- Python `str()` as used in the auto-selection f-string
(orchestrator.py line 203); only the `str` and `None` cases occur there. -/
def pyStr : Value → String
  | Value.pyNone => "None"
  | Value.str s => s
  | _ => "object"

/-- Python `==` between an option's `"name"` entry (a string) and the
`selected_option` variable (orchestrator.py line 208): equal only when the
latter is the same string. -/
def pyEqStr (s : String) : Value → Bool
  | Value.str t => s == t
  | _ => false

/-- The AgentCore Memory session record for one `(memory_id, session_id,
actor_id)` scope: the key-value pairs written so far, newest first. -/
def Store : Type := List (String × Value)

/-- `session_manager.save(key, value)`: last write wins. -/
def store_save (store : Store) (key : String) (v : Value) : Store :=
  (key, v) :: store

/-- Whether the store holds a value for `key`, and which one: the session
store's load, before Python collapses a miss to `None`. -/
def store_find : Store → String → Option Value
  | [], _ => Option.none
  | (k, v) :: rest, key => if key = k then some v else store_find rest key

/-- `await session_manager.load(key)` as seen by the orchestrator's Python
code: a key that was never saved reads as `None`. -/
def store_load (store : Store) (key : String) : Value :=
  (store_find store key).getD Value.pyNone

/-- The `WorkflowState` TypedDict (orchestrator.py lines 16-37). -/
structure WorkflowState where
  session_id : String
  actor_id : String
  memory_id : String
  document_text : Option String
  document_metadata : Option (List (String × String))
  current_step : String
  errors : List String
  messages : List String
  user_selection_made : Bool
  refinement_requested : Bool
deriving Repr, DecidableEq

/-- The external collaborators invoked by the step handlers.  Each field
models one call that the corresponding handler performs inside its `try`
block; `Except.error e` is a raised exception with message `e` (what the
handler's `except` clause stringifies), `Except.ok` a normal return.  The
`dumps` fields model `json.dumps` (pure serialization, exact output
irrelevant to the orchestrator's control flow). -/
structure Env where
  extract_requirements : Option String → String → Except String SystemRequirements
  format_requirements_to_markdown : SystemRequirements → String
  generate_options : Value → Except String (List ArchitectureOption)
  dumps_options : List ArchitectureOption → String
  compare_options : Value → Except String CompareAgentOutput
  refine : Value → String → Option String → Except String (String × String)
  generate_diagram : String → Except String String
  dumps : Value → String
  render_diagram : Value → String → Except String String
  generate_plan : String → Except String Value

/-- Step 1, `_extract_requirements` (orchestrator.py lines 93-130): call the
gateway extractor (plus response parsing and `SystemRequirements`
construction, bundled in `Env.extract_requirements`), save `requirements`
and `requirements_markdown`, then set `current_step` and append the progress
message; a raised exception is caught and appended to `errors` (leaving
`current_step` and `messages` untouched, since both updates sit at the end of
the `try` block). -/
def extract_requirements_step (env : Env) (store : Store) (state : WorkflowState) :
    Store × WorkflowState :=
  match env.extract_requirements state.document_text state.session_id with
  | Except.error e =>
    (store, { state with errors := state.errors ++ ["Requirements extraction failed: " ++ e] })
  | Except.ok requirements =>
    let store1 := store_save store "requirements" (Value.reqs requirements)
    let store2 := store_save store1 "requirements_markdown"
      (Value.str (env.format_requirements_to_markdown requirements))
    (store2,
      { state with
          current_step := "extract_requirements",
          messages := state.messages ++ ["Requirements extracted via Gateway and saved to memory"] })

/-- Step 2, `_generate_designs` (orchestrator.py lines 132-159): load the
requirements markdown, run the design agent, save `design_options` and
`design_options_json`; on exception append to `errors` only. -/
def generate_designs_step (env : Env) (store : Store) (state : WorkflowState) :
    Store × WorkflowState :=
  let requirements_markdown := store_load store "requirements_markdown"
  match env.generate_options requirements_markdown with
  | Except.error e =>
    (store, { state with errors := state.errors ++ ["Design generation failed: " ++ e] })
  | Except.ok options_list =>
    let store1 := store_save store "design_options" (Value.opts options_list)
    let store2 := store_save store1 "design_options_json"
      (Value.str (env.dumps_options options_list))
    (store2,
      { state with
          current_step := "generate_designs",
          messages := state.messages ++
            ["Generated " ++ toString options_list.length ++ " architecture options"] })

/-- Step 3, `_compare_options` (orchestrator.py lines 161-187): load the
options JSON, run the compare agent, save `comparison_results` and
`recommended_option`; on exception append to `errors` only. -/
def compare_options_step (env : Env) (store : Store) (state : WorkflowState) :
    Store × WorkflowState :=
  let design_options_json := store_load store "design_options_json"
  match env.compare_options design_options_json with
  | Except.error e =>
    (store, { state with errors := state.errors ++ ["Comparison failed: " ++ e] })
  | Except.ok comparison =>
    let store1 := store_save store "comparison_results" (Value.comp comparison)
    let store2 := store_save store1 "recommended_option" (Value.str comparison.recommended_option)
    (store2,
      { state with
          current_step := "compare_options",
          messages := state.messages ++ ["Recommended: " ++ comparison.recommended_option] })

/-- Step 4, `_wait_for_selection` (orchestrator.py lines 189-222): default a
missing/falsy `selected_option` to the stored `recommended_option` (saving it
back and appending the auto-selection message), then look the chosen name up
in `design_options` and, when found, save `selected_option_data`; finally set
`current_step` and `user_selection_made`.  Iterating a `design_options` value
that is `None` (or any non-list) raises inside the `try`, which appends to
`errors` after the earlier saves already happened; an empty-string value
iterates to nothing, so the lookup just misses. -/
def wait_for_selection_step (env : Env) (store : Store) (state : WorkflowState) :
    Store × WorkflowState :=
  let sel0 := store_load store "selected_option"
  let defaulted := !truthy sel0
  let recommended := store_load store "recommended_option"
  let selected_option := if defaulted then recommended else sel0
  let store1 := if defaulted then store_save store "selected_option" recommended else store
  let msgs1 := if defaulted then
      state.messages ++ ["Auto-selected recommended option: " ++ pyStr selected_option]
    else state.messages
  let finish := fun (found : Option ArchitectureOption) =>
    let store2 := match found with
      | some o => store_save store1 "selected_option_data" (Value.opt o)
      | Option.none => store1
    (store2,
      { state with
          messages := msgs1,
          current_step := "wait_for_selection",
          user_selection_made := true })
  match store_load store1 "design_options" with
  | Value.opts design_options =>
    finish (design_options.find? (fun o => pyEqStr o.name selected_option))
  | Value.str s =>
    if s.isEmpty then finish Option.none
    else
      (store1, { state with
          messages := msgs1,
          errors := state.errors ++ ["Selection failed: design_options is not iterable"] })
  | _ =>
    (store1, { state with
        messages := msgs1,
        errors := state.errors ++ ["Selection failed: design_options is not iterable"] })

/-- The conditional edge `_should_refine` (orchestrator.py lines 224-228). -/
def should_refine (state : WorkflowState) : String :=
  if state.refinement_requested then "refine" else "proceed"

/-- Step 5, `_apply_refinements` (orchestrator.py lines 230-267): when a
truthy `refinement_request` with a falsy `processed` mark is stored, run the
refinement engine, overwrite `selected_option_data`, save the result, mark
the request processed, append the message and clear `refinement_requested`;
otherwise only set `current_step`.  A raised exception (engine failure, or a
truthy non-dict request value on which `.get` raises) appends to `errors`
and leaves everything else, including `current_step`, unchanged. -/
def apply_refinements_step (env : Env) (store : Store) (state : WorkflowState) :
    Store × WorkflowState :=
  let refinement_request := store_load store "refinement_request"
  let selected_option_data := store_load store "selected_option_data"
  match refinement_request with
  | Value.refReq r =>
    if r.processed then
      (store, { state with current_step := "apply_refinements" })
    else
      match env.refine selected_option_data r.feedback r.focus_area with
      | Except.ok result =>
        let store1 := store_save store "selected_option_data" (Value.str result.1)
        let store2 := store_save store1 "refinement_result" (Value.refRes result.1 result.2)
        let store3 := store_save store2 "refinement_request"
          (Value.refReq { r with processed := true })
        (store3,
          { state with
              messages := state.messages ++ ["Refinement applied: " ++ result.2],
              refinement_requested := false,
              current_step := "apply_refinements" })
      | Except.error e =>
        (store, { state with errors := state.errors ++ ["Refinement failed: " ++ e] })
  | Value.pyNone =>
    (store, { state with current_step := "apply_refinements" })
  | v =>
    if truthy v then
      (store, { state with errors := state.errors ++ ["Refinement failed: request has no get"] })
    else
      (store, { state with current_step := "apply_refinements" })

/-- Step 6, `_generate_diagram` (orchestrator.py lines 269-307): load the
selected option payload, run the diagram agent on its JSON dump, save
`diagram_code`; then, in a nested `try` whose failure is only logged, render
the diagram to a file named from `selected_option` and save `diagram_path`
(a non-string `selected_option` makes `.replace` raise inside that inner
`try`).  Finally set `current_step` and append the message; an exception in
the outer `try` appends to `errors` only. -/
def generate_diagram_step (env : Env) (store : Store) (state : WorkflowState) :
    Store × WorkflowState :=
  let selected_option_data := store_load store "selected_option_data"
  match env.generate_diagram (env.dumps selected_option_data) with
  | Except.error e =>
    (store, { state with errors := state.errors ++ ["Diagram generation failed: " ++ e] })
  | Except.ok mermaid_code =>
    let store1 := store_save store "diagram_code" (Value.str mermaid_code)
    let store2 := match store_load store1 "selected_option" with
      | Value.str s =>
        match env.render_diagram selected_option_data
            ((s.replace " " "_").toLower ++ "_diagram.png") with
        | Except.ok diagram_path => store_save store1 "diagram_path" (Value.str diagram_path)
        | Except.error _ => store1
      | _ => store1
    (store2,
      { state with
          current_step := "generate_diagram",
          messages := state.messages ++ ["Diagram generated"] })

/-- Step 7, `_generate_staffing` (orchestrator.py lines 309-334): load the
selected option payload, run the staffing agent on its JSON dump, save
`staffing_plan`; on exception append to `errors` only. -/
def generate_staffing_step (env : Env) (store : Store) (state : WorkflowState) :
    Store × WorkflowState :=
  let selected_option_data := store_load store "selected_option_data"
  match env.generate_plan (env.dumps selected_option_data) with
  | Except.error e =>
    (store, { state with errors := state.errors ++ ["Staffing generation failed: " ++ e] })
  | Except.ok staffing_plan =>
    let store1 := store_save store "staffing_plan" staffing_plan
    (store1,
      { state with
          current_step := "generate_staffing",
          messages := state.messages ++ ["Staffing plan generated"] })

/-- Step 8, `_finalize` (orchestrator.py lines 336-343): unconditionally set
`current_step` and append the completion message. -/
def finalize_step (store : Store) (state : WorkflowState) : Store × WorkflowState :=
  (store,
    { state with
        current_step := "finalize",
        messages := state.messages ++ ["Workflow completed successfully"] })

/-- The `wait_for_selection ↔ apply_refinements` cycle of the compiled graph
(orchestrator.py lines 77-86): while `_should_refine` answers `refine`, run
`apply_refinements` and re-enter `wait_for_selection`.  `fuel` bounds the
unfolding; the flag starts false in `run` and no step ever sets it, so within
`run` the loop body is never taken. -/
def refinement_loop (env : Env) : Nat → Store → WorkflowState → Store × WorkflowState
  | 0, store, state => (store, state)
  | Nat.succ fuel, store, state =>
    if should_refine state = "refine" then
      let r1 := apply_refinements_step env store state
      let r2 := wait_for_selection_step env r1.1 r1.2
      refinement_loop env fuel r2.1 r2.2
    else (store, state)

/-- The initial state built by `run` (orchestrator.py lines 364-375). -/
def initial_state (document_text session_id actor_id memory_id : String)
    (document_metadata : Option (List (String × String))) : WorkflowState :=
  { session_id := session_id
    actor_id := actor_id
    memory_id := memory_id
    document_text := some document_text
    document_metadata := document_metadata
    current_step := "start"
    errors := []
    messages := []
    user_selection_made := false
    refinement_requested := false }

/-- `ArchitectureWorkflowOrchestrator.run` (orchestrator.py lines 345-377):
seed the initial state and drive the compiled graph
`extract_requirements → generate_designs → compare_options →
wait_for_selection → [refinement loop] → generate_diagram →
generate_staffing → finalize`, threading the session store through every
step. -/
def run_workflow (env : Env) (fuel : Nat) (store : Store)
    (document_text session_id actor_id memory_id : String)
    (document_metadata : Option (List (String × String))) : Store × WorkflowState :=
  let st0 := initial_state document_text session_id actor_id memory_id document_metadata
  let r1 := extract_requirements_step env store st0
  let r2 := generate_designs_step env r1.1 r1.2
  let r3 := compare_options_step env r2.1 r2.2
  let r4 := wait_for_selection_step env r3.1 r3.2
  let r5 := refinement_loop env fuel r4.1 r4.2
  let r6 := generate_diagram_step env r5.1 r5.2
  let r7 := generate_staffing_step env r6.1 r6.2
  finalize_step r7.1 r7.2

/-- A decoder on which every text fails to parse (models `json.loads` raising
`JSONDecodeError` on any input). -/
def decode_fail : String → Option Json := fun _ => Option.none

/-- Claim C8: for every logical tool name `n`, `call_tool` derives the wire
identifier `n ++ "___" ++ n` and the invocation sent to the gateway targets
exactly that identifier, the caller having supplied only the logical name. -/
theorem call_tool_name_mangling (server : ToolInvocation → MCPResult)
    (decode : String → Option Json) (tool_use_id tool_name : String)
    (arguments : List (String × Json)) :
    call_tool server decode tool_use_id tool_name arguments =
      normalize_reply decode
        (server { tool_use_id := tool_use_id,
                  name := tool_name ++ "___" ++ tool_name,
                  arguments := arguments }) := rfl

/-- Claim C1, counterexample: a structured-object reply whose content text is
not valid JSON makes `call_tool` re-raise the decode exception
(`Except.error`) instead of returning a decode-error result — the claimed
"never lets an unhandled exception escape" is false for reply shape 1. -/
theorem call_tool_obj_decode_error_raises :
    call_tool (fun _ => MCPResult.obj [ContentItem.withText "not json"]) decode_fail
      "u1" "toolA" [] = Except.error "not json" := rfl

/-- Claim C1, amended: envelope normalization per reply shape.  An
object-shaped reply with decodable text is unwrapped; with undecodable text
the `JSONDecodeError` escapes `call_tool` (re-raised by the outer handler).
A mapping-shaped reply with a content list is unwrapped, and a decode failure
there yields the typed decode-error result retaining the raw text; a mapping
without such a content list (including the `error`-key shape) is returned
as-is as an error/diagnostic mapping; any other reply yields the
unexpected-format error result retaining the raw payload. -/
theorem call_tool_envelope_normalization (decode : String → Option Json)
    (uid n : String) (args : List (String × Json)) (text : String)
    (rest : List ContentItem) (err : Option String) (d : PyDict) (s : String) (j : Json) :
    (decode text = some j →
      call_tool (fun _ => MCPResult.obj (ContentItem.withText text :: rest)) decode uid n args =
        Except.ok (ToolResponse.parsed j)) ∧
    (decode text = Option.none →
      call_tool (fun _ => MCPResult.obj (ContentItem.withText text :: rest)) decode uid n args =
        Except.error text) ∧
    (decode text = some j →
      call_tool
          (fun _ => MCPResult.dict { content := some (ContentItem.withText text :: rest),
                                     error := err })
          decode uid n args =
        Except.ok (ToolResponse.parsed j)) ∧
    (decode text = Option.none →
      call_tool
          (fun _ => MCPResult.dict { content := some (ContentItem.withText text :: rest),
                                     error := err })
          decode uid n args =
        Except.ok (ToolResponse.decodeErrorResult text)) ∧
    (d.content = Option.none →
      call_tool (fun _ => MCPResult.dict d) decode uid n args =
        Except.ok (ToolResponse.dictResult d)) ∧
    (call_tool (fun _ => MCPResult.raw s) decode uid n args =
      Except.ok (ToolResponse.unexpectedFormat (MCPResult.raw s))) := by
  refine ⟨fun h => by simp [call_tool, normalize_reply, h],
          fun h => by simp [call_tool, normalize_reply, h],
          fun h => by simp [call_tool, normalize_reply, h],
          fun h => by simp [call_tool, normalize_reply, h],
          fun h => by simp [call_tool, normalize_reply, h],
          by simp [call_tool, normalize_reply]⟩

/-- Claim C1, witness: a mapping-shaped reply with undecodable text yields
the decode-error result with the raw text retained. -/
theorem call_tool_envelope_normalization_witness :
    call_tool
        (fun _ => MCPResult.dict { content := some [ContentItem.withText "oops"],
                                   error := Option.none })
        decode_fail "u1" "toolA" [] =
      Except.ok (ToolResponse.decodeErrorResult "oops") :=
  (call_tool_envelope_normalization decode_fail "u1" "toolA" [] "oops" [] Option.none
    { content := Option.none, error := Option.none } "s" Json.null).2.2.2.1 rfl

/-- Claim C2, counterexample: against a gateway that repeats the same
pagination token forever, the `while` loop of `list_tools` never terminates —
identical consecutive tokens are not treated as end-of-pagination. -/
theorem list_tools_nonadvancing_token_loops : list_tools_diverges nonadvancing_replies := by
  intro fuel
  induction fuel with
  | zero => intro i acc; rfl
  | succ fuel ih =>
    intro i acc
    simpa [list_tools_fuel, nonadvancing_replies] using ih (i + 1) (acc ++ ["toolA"])

/-- Splitting off the head page of a flattened range of pages. -/
theorem flatten_map_range_succ {α : Type} (f : Nat → List α) (n : Nat) :
    ((List.range (n + 1)).map f).flatten =
      f 0 ++ ((List.range n).map (fun j => f (j + 1))).flatten := by
  rw [List.range_succ_eq_map]
  have hfun : f ∘ Nat.succ = fun j => f (j + 1) := by
    funext j
    simp [Function.comp, Nat.succ_eq_add_one]
  simp [List.map_map, hfun]

/-- Helper for the amended C2: the loop, started at request index `i` with
accumulator `acc`, returns the concatenation of the next `k + 1` pages' tools
as soon as page `i + k` is the first from `i` to carry no token. -/
theorem list_tools_fuel_reaches (replies : Nat → ToolPage) :
    ∀ (k i fuel : Nat) (acc : List String),
      (∀ j, j < k → (replies (i + j)).pagination_token ≠ Option.none) →
      (replies (i + k)).pagination_token = Option.none →
      k < fuel →
      list_tools_fuel replies i fuel acc =
        some (acc ++ ((List.range (k + 1)).map (fun j => (replies (i + j)).tools)).flatten) := by
  intro k
  induction k with
  | zero =>
    intro i fuel acc _ hk hfuel
    match fuel, hfuel with
    | Nat.succ fuel, _ =>
      simp only [Nat.add_zero] at hk
      simp [list_tools_fuel, hk, List.range_succ]
  | succ k ih =>
    intro i fuel acc hbefore hk hfuel
    match fuel, hfuel with
    | Nat.succ fuel, hfuel =>
      have h0 : (replies i).pagination_token ≠ Option.none := by
        have := hbefore 0 (Nat.succ_pos k)
        simpa using this
      match htok : (replies i).pagination_token with
      | Option.none => exact absurd htok h0
      | some t =>
        have hrec := ih (i + 1) fuel (acc ++ (replies i).tools)
          (fun j hj => by
            have hb := hbefore (j + 1) (Nat.succ_lt_succ hj)
            have hidx : i + (j + 1) = i + 1 + j := by omega
            rwa [hidx] at hb)
          (by
            have hidx : i + (k + 1) = i + 1 + k := by omega
            rwa [hidx] at hk)
          (Nat.lt_of_succ_lt_succ hfuel)
        have hfun : (fun j => (replies (i + 1 + j)).tools) =
            (fun j => (replies (i + (j + 1))).tools) := by
          funext j
          have hidx : i + 1 + j = i + (j + 1) := by omega
          rw [hidx]
        rw [hfun] at hrec
        simp only [list_tools_fuel, htok]
        rw [hrec]
        rw [flatten_map_range_succ (fun j => (replies (i + j)).tools) (k + 1)]
        simp [List.append_assoc]

/-- Claim C2, amended: `list_tools` terminates exactly when the gateway
eventually answers with a token-free page; when page `k` is the first such
page, any fuel above `k` returns the concatenation of pages `0..k`'s tools,
each page's tools contributed once, regardless of the (possibly repeated)
token values on the earlier pages.  A non-advancing token is not an
end-of-pagination signal (see the counterexample). -/
theorem list_tools_terminates_on_null_token (replies : Nat → ToolPage) (k : Nat)
    (hbefore : ∀ j, j < k → (replies j).pagination_token ≠ Option.none)
    (hk : (replies k).pagination_token = Option.none)
    (fuel : Nat) (hfuel : k < fuel) :
    list_tools_fuel replies 0 fuel [] =
      some (((List.range (k + 1)).map (fun j => (replies j).tools)).flatten) := by
  have := list_tools_fuel_reaches replies k 0 fuel []
    (fun j hj => by simpa using hbefore j hj)
    (by simpa using hk) hfuel
  simpa using this

/-- A gateway whose first page repeats a token and whose second page ends
pagination. -/
def two_page_replies : Nat → ToolPage :=
  fun i => if i = 0 then { tools := ["a"], pagination_token := some "tok" }
           else { tools := ["b"], pagination_token := Option.none }

/-- Claim C2, witness: the two-page gateway terminates with both pages' tools
listed once each. -/
theorem list_tools_terminates_on_null_token_witness :
    list_tools_fuel two_page_replies 0 5 [] = some ["a", "b"] := by
  have h := list_tools_terminates_on_null_token two_page_replies 1
    (fun j hj => by
      have : j = 0 := by omega
      subst this
      simp [two_page_replies])
    (by simp [two_page_replies]) 5 (by omega)
  simpa [two_page_replies, List.range_succ] using h

/-- Reading through a save: the value for the saved key, pass-through for
every other key. -/
theorem store_find_save (store : Store) (k k2 : String) (v : Value) :
    store_find (store_save store k v) k2 = if k2 = k then some v else store_find store k2 := rfl

/-- Reading through a save at the Python level. -/
theorem store_load_save (store : Store) (k k2 : String) (v : Value) :
    store_load (store_save store k v) k2 = if k2 = k then v else store_load store k2 := by
  simp only [store_load, store_find_save]
  split <;> rfl

/-- The selection step writes only the `selected_option` and
`selected_option_data` keys: every other key reads the same before and
after. -/
theorem wait_for_selection_store_frame (env : Env) (store : Store) (state : WorkflowState)
    (k : String) (h1 : k ≠ "selected_option") (h2 : k ≠ "selected_option_data") :
    store_find (wait_for_selection_step env store state).1 k = store_find store k := by
  unfold wait_for_selection_step
  cases htr : truthy (store_load store "selected_option") <;>
    simp only [htr, Bool.not_true, Bool.not_false, if_true, if_false] <;>
    split <;>
    first
      | (split <;> simp [store_find_save, h1, h2])
      | simp [store_find_save, h1, h2]

/-- When `selected_option` is missing or falsy, the selection step saves the
stored `recommended_option` under `selected_option`. -/
theorem wait_for_selection_defaults (env : Env) (store : Store) (state : WorkflowState)
    (hsel : truthy (store_load store "selected_option") = false) :
    store_find (wait_for_selection_step env store state).1 "selected_option" =
      some (store_load store "recommended_option") := by
  unfold wait_for_selection_step
  simp only [hsel, Bool.not_false, if_true]
  split <;>
    first
      | (split <;> simp [store_find_save])
      | simp [store_find_save]

/-- Claim C6: if no `selected_option` key exists when `wait_for_selection`
runs and `recommended_option` is stored as `v`, the step populates
`selected_option` from it and afterwards both keys read `v`. -/
theorem wait_for_selection_default_selection (env : Env) (store : Store)
    (state : WorkflowState) (v : Value)
    (hsel : store_find store "selected_option" = Option.none)
    (hrec : store_find store "recommended_option" = some v) :
    store_load (wait_for_selection_step env store state).1 "selected_option" = v ∧
    store_load (wait_for_selection_step env store state).1 "recommended_option" = v := by
  have hsel0 : store_load store "selected_option" = Value.pyNone := by
    simp [store_load, hsel]
  have hrecv : store_load store "recommended_option" = v := by
    simp [store_load, hrec]
  constructor
  · have h := wait_for_selection_defaults env store state (by simp [hsel0, truthy])
    simp [store_load, h, hrec]
  · have h := wait_for_selection_store_frame env store state "recommended_option"
      (by decide) (by decide)
    simp [store_load, h, hrec]

/-- An environment in which every external collaborator call raises. -/
def env_fail : Env :=
  { extract_requirements := fun _ _ => Except.error "boom"
    format_requirements_to_markdown := fun _ => ""
    generate_options := fun _ => Except.error "boom"
    dumps_options := fun _ => ""
    compare_options := fun _ => Except.error "boom"
    refine := fun _ _ _ => Except.error "boom"
    generate_diagram := fun _ => Except.error "boom"
    dumps := fun _ => ""
    render_diagram := fun _ _ => Except.error "boom"
    generate_plan := fun _ => Except.error "boom" }

/-- Claim C6, witness: concrete store with only a recommended option. -/
theorem wait_for_selection_default_selection_witness :
    store_load
        (wait_for_selection_step env_fail [("recommended_option", Value.str "Balanced")]
          (initial_state "d" "s" "a" "m" Option.none)).1
      "selected_option" = Value.str "Balanced" :=
  (wait_for_selection_default_selection env_fail
    [("recommended_option", Value.str "Balanced")]
    (initial_state "d" "s" "a" "m" Option.none) (Value.str "Balanced")
    (by decide) (by decide)).1

/-- Claim C10: when a truthy `selected_option` name is stored but matches no
entry of the stored `design_options` list, `wait_for_selection` writes
nothing at all (in particular no `selected_option_data`), appends no error,
and still sets `user_selection_made`. -/
theorem wait_for_selection_unknown_option (env : Env) (store : Store)
    (state : WorkflowState) (sel : String) (opts : List ArchitectureOption)
    (hsel : store_load store "selected_option" = Value.str sel)
    (hne : sel ≠ "")
    (hopts : store_load store "design_options" = Value.opts opts)
    (hnomatch : ∀ o ∈ opts, o.name ≠ sel) :
    (wait_for_selection_step env store state).1 = store ∧
    (wait_for_selection_step env store state).2.errors = state.errors ∧
    (wait_for_selection_step env store state).2.user_selection_made = true := by
  have hie : sel.isEmpty = false := by
    cases hh : sel.isEmpty
    · rfl
    · exact absurd ((String.isEmpty_iff sel).mp hh) hne
  have htr : truthy (Value.str sel) = true := by simp [truthy, hie]
  have hfind : opts.find? (fun o => pyEqStr o.name (Value.str sel)) = Option.none := by
    apply List.find?_eq_none.mpr
    intro o ho
    simp [pyEqStr, hnomatch o ho]
  unfold wait_for_selection_step
  simp [hsel, htr, hopts, hfind]

/-- Claim C10, witness: a stored selection naming no design option. -/
theorem wait_for_selection_unknown_option_witness :
    (wait_for_selection_step env_fail
        [("selected_option", Value.str "Nope"),
         ("design_options", Value.opts [{ name := "Balanced", fields := [] }])]
        (initial_state "d" "s" "a" "m" Option.none)).2.user_selection_made = true :=
  (wait_for_selection_unknown_option env_fail
    [("selected_option", Value.str "Nope"),
     ("design_options", Value.opts [{ name := "Balanced", fields := [] }])]
    (initial_state "d" "s" "a" "m" Option.none) "Nope"
    [{ name := "Balanced", fields := [] }]
    (by decide) (by decide) (by decide) (by decide)).2.2

/-- Claim C5: one run of `apply_refinements` on an unprocessed request marks
the stored request processed and clears `refinement_requested`; re-running
the step on the resulting store and state changes nothing (the refinement is
not reapplied). -/
theorem apply_refinements_processed_once (env : Env) (store : Store)
    (state : WorkflowState) (r : RefinementRequest) (refined summary : String)
    (hreq : store_load store "refinement_request" = Value.refReq r)
    (hproc : r.processed = false)
    (hflag : state.refinement_requested = true)
    (hok : env.refine (store_load store "selected_option_data") r.feedback r.focus_area =
      Except.ok (refined, summary)) :
    store_load (apply_refinements_step env store state).1 "refinement_request" =
      Value.refReq { r with processed := true } ∧
    (apply_refinements_step env store state).2.refinement_requested = false ∧
    apply_refinements_step env (apply_refinements_step env store state).1
        (apply_refinements_step env store state).2 =
      apply_refinements_step env store state := by
  have h1 : apply_refinements_step env store state =
      (store_save (store_save (store_save store "selected_option_data" (Value.str refined))
          "refinement_result" (Value.refRes refined summary))
          "refinement_request" (Value.refReq { r with processed := true }),
        { state with
            messages := state.messages ++ ["Refinement applied: " ++ summary],
            refinement_requested := false,
            current_step := "apply_refinements" }) := by
    unfold apply_refinements_step
    simp [hreq, hproc, hok]
  refine ⟨?_, ?_, ?_⟩
  · rw [h1]
    simp [store_load_save]
  · rw [h1]
  · rw [h1]
    unfold apply_refinements_step
    simp [store_load_save]

/-- Claim C5, witness: a concrete unprocessed request is processed once. -/
theorem apply_refinements_processed_once_witness :
    (apply_refinements_step
        { env_fail with refine := fun _ _ _ => Except.ok ("archRefined", "tuned") }
        [("refinement_request",
          Value.refReq { feedback := "cheaper", focus_area := some "cost", processed := false })]
        { initial_state "d" "s" "a" "m" Option.none with
            refinement_requested := true }).2.refinement_requested = false :=
  (apply_refinements_processed_once
    { env_fail with refine := fun _ _ _ => Except.ok ("archRefined", "tuned") }
    [("refinement_request",
      Value.refReq { feedback := "cheaper", focus_area := some "cost", processed := false })]
    { initial_state "d" "s" "a" "m" Option.none with refinement_requested := true }
    { feedback := "cheaper", focus_area := some "cost", processed := false }
    "archRefined" "tuned" (by decide) rfl rfl rfl).2.1

/-- Claim C9: `apply_refinements` clears `refinement_requested` only in the
branch that actually applies a refinement (a stored, truthy request with a
falsy `processed` mark and a successful engine call); when the stored request
is absent or already processed, the flag stays true and the conditional edge
answers `refine` again. -/
theorem apply_refinements_flag_frame (env : Env) :
    (∀ (store : Store) (state : WorkflowState),
      state.refinement_requested = true →
      (store_load store "refinement_request" = Value.pyNone ∨
        ∃ r, store_load store "refinement_request" = Value.refReq r ∧ r.processed = true) →
      ((apply_refinements_step env store state).2.refinement_requested = true ∧
        should_refine (apply_refinements_step env store state).2 = "refine")) ∧
    (∀ (store : Store) (state : WorkflowState),
      state.refinement_requested = true →
      (apply_refinements_step env store state).2.refinement_requested = false →
      ∃ r result,
        store_load store "refinement_request" = Value.refReq r ∧
        r.processed = false ∧
        env.refine (store_load store "selected_option_data") r.feedback r.focus_area =
          Except.ok result) := by
  constructor
  · intro store state hflag hreq
    rcases hreq with hnone | ⟨r, hr, hp⟩
    · unfold apply_refinements_step
      simp [hnone, should_refine, hflag]
    · unfold apply_refinements_step
      simp [hr, hp, should_refine, hflag]
  · intro store state hflag hres
    unfold apply_refinements_step at hres
    cases hv : store_load store "refinement_request"
    case pyNone => rw [hv] at hres; simp_all
    case str s =>
      rw [hv] at hres
      simp only [truthy] at hres
      split at hres <;> simp_all
    case opts l =>
      rw [hv] at hres
      simp only [truthy] at hres
      split at hres <;> simp_all
    case reqs r => rw [hv] at hres; simp_all [truthy]
    case opt o => rw [hv] at hres; simp_all [truthy]
    case comp c => rw [hv] at hres; simp_all [truthy]
    case refRes a b => rw [hv] at hres; simp_all [truthy]
    case plan p => rw [hv] at hres; simp_all [truthy]
    case refReq r =>
      rw [hv] at hres
      simp only [truthy] at hres
      cases hp : r.processed
      · rw [hp] at hres
        cases hcall : env.refine (store_load store "selected_option_data") r.feedback
            r.focus_area with
        | error e => rw [hcall] at hres; simp_all
        | ok result => exact ⟨r, result, rfl, hp, hcall⟩
      · rw [hp] at hres; simp_all

/-- Claim C9, witness: with no stored request and the flag set, one pass
leaves the flag set. -/
theorem apply_refinements_flag_frame_witness :
    (apply_refinements_step env_fail []
        { initial_state "d" "s" "a" "m" Option.none with
            refinement_requested := true }).2.refinement_requested = true :=
  ((apply_refinements_flag_frame env_fail).1 []
    { initial_state "d" "s" "a" "m" Option.none with refinement_requested := true }
    rfl (Or.inl rfl)).1

/-- Claim C4, counterexample: a failed step does not update `current_step`.
With an extractor that raises, `extract_requirements` is attempted (its
failure is recorded in `errors`) yet `current_step` still reads `start`, not
the name of the most recently attempted step. -/
theorem current_step_not_set_on_failed_step :
    (extract_requirements_step env_fail []
        (initial_state "doc" "s" "a" "m" Option.none)).2.current_step = "start" ∧
    (extract_requirements_step env_fail []
        (initial_state "doc" "s" "a" "m" Option.none)).2.errors =
      ["Requirements extraction failed: boom"] ∧
    ("start" : String) ≠ "extract_requirements" :=
  ⟨rfl, rfl, by decide⟩

/-- Claim C4, amended: a step handler updates `current_step` to its own name
exactly when its body completes without an exception; a failed handler
leaves `current_step` at its previous value (shown for the two steps the
claim cites, `extract_requirements` and `generate_designs`). -/
theorem current_step_updated_only_on_success (env : Env) (store : Store)
    (state : WorkflowState) :
    ((env.extract_requirements state.document_text state.session_id).isOk = false →
      (extract_requirements_step env store state).2.current_step = state.current_step) ∧
    (∀ req, env.extract_requirements state.document_text state.session_id = Except.ok req →
      (extract_requirements_step env store state).2.current_step = "extract_requirements") ∧
    ((env.generate_options (store_load store "requirements_markdown")).isOk = false →
      (generate_designs_step env store state).2.current_step = state.current_step) ∧
    (∀ opts, env.generate_options (store_load store "requirements_markdown") = Except.ok opts →
      (generate_designs_step env store state).2.current_step = "generate_designs") := by
  refine ⟨?_, ?_, ?_, ?_⟩
  · intro h
    unfold extract_requirements_step
    cases hc : env.extract_requirements state.document_text state.session_id
    · simp
    · rw [hc] at h; simp [Except.isOk, Except.toBool] at h
  · intro req h
    unfold extract_requirements_step
    rw [h]
  · intro h
    unfold generate_designs_step
    simp only []
    cases hc : env.generate_options (store_load store "requirements_markdown")
    · simp
    · rw [hc] at h; simp [Except.isOk, Except.toBool] at h
  · intro opts h
    unfold generate_designs_step
    simp only []
    rw [h]

/-- Claim C4, witness: the amended statement applied to the always-failing
environment and the initial state. -/
theorem current_step_updated_only_on_success_witness :
    (extract_requirements_step env_fail []
        (initial_state "d" "s" "a" "m" Option.none)).2.current_step = "start" :=
  (current_step_updated_only_on_success env_fail []
    (initial_state "d" "s" "a" "m" Option.none)).1 rfl

/-- Whether an `errors` entry is attributable to the `generate_designs` step:
that step is the only one whose handler prefixes its entries with
`Design generation failed: `. -/
def designErr (x : String) : Bool :=
  "Design generation failed: ".data.isPrefixOf x.data

/-- Two lists neither of which is a prefix of the other stay non-prefixes
after extending the second. -/
theorem not_prefix_append {α : Type} (p q e : List α)
    (h1 : ¬ p <+: q) (h2 : ¬ q <+: p) : ¬ p <+: (q ++ e) := by
  intro h
  rcases Nat.le_total p.length q.length with hle | hle
  · exact h1 (List.prefix_of_prefix_length_le h (List.prefix_append q e) hle)
  · exact h2 (List.prefix_of_prefix_length_le (List.prefix_append q e) h hle)

/-- An error entry built from a different step's fixed prefix is never a
design-generation entry, whatever the exception text. -/
theorem designErr_other_prefix (q e : String)
    (h1 : ¬ ("Design generation failed: ".data <+: q.data))
    (h2 : ¬ (q.data <+: "Design generation failed: ".data)) :
    designErr (q ++ e) = false := by
  unfold designErr
  rw [String.data_append, Bool.eq_false_iff]
  intro hc
  exact not_prefix_append _ _ _ h1 h2 (List.isPrefixOf_iff_prefix.mp hc)

/-- Every entry the design step appends is a design-generation entry. -/
theorem designErr_self_append (e : String) :
    designErr ("Design generation failed: " ++ e) = true := by
  unfold designErr
  rw [String.data_append]
  exact List.isPrefixOf_iff_prefix.mpr (List.prefix_append _ _)

/-- `extract_requirements` never contributes a design-generation error
entry. -/
theorem countP_designErr_extract (env : Env) (store : Store) (state : WorkflowState) :
    (extract_requirements_step env store state).2.errors.countP (fun x => designErr x) =
      state.errors.countP (fun x => designErr x) := by
  unfold extract_requirements_step
  cases hc : env.extract_requirements state.document_text state.session_id
  · simp [List.countP_append,
      designErr_other_prefix "Requirements extraction failed: " _ (by decide) (by decide)]
  · simp

/-- When the design agent raises, `generate_designs` appends exactly one
design-generation error entry. -/
theorem countP_designErr_designs_fail (env : Env) (store : Store) (state : WorkflowState)
    (e : String)
    (h : env.generate_options (store_load store "requirements_markdown") = Except.error e) :
    (generate_designs_step env store state).2.errors.countP (fun x => designErr x) =
      state.errors.countP (fun x => designErr x) + 1 := by
  unfold generate_designs_step
  simp only []
  rw [h]
  simp [List.countP_append, designErr_self_append]

/-- `compare_options` never contributes a design-generation error entry. -/
theorem countP_designErr_compare (env : Env) (store : Store) (state : WorkflowState) :
    (compare_options_step env store state).2.errors.countP (fun x => designErr x) =
      state.errors.countP (fun x => designErr x) := by
  unfold compare_options_step
  simp only []
  cases hc : env.compare_options (store_load store "design_options_json")
  · simp [List.countP_append,
      designErr_other_prefix "Comparison failed: " _ (by decide) (by decide)]
  · simp

/-- `wait_for_selection` never contributes a design-generation error
entry. -/
theorem countP_designErr_wait (env : Env) (store : Store) (state : WorkflowState) :
    (wait_for_selection_step env store state).2.errors.countP (fun x => designErr x) =
      state.errors.countP (fun x => designErr x) := by
  have hfix : designErr "Selection failed: design_options is not iterable" = false := by decide
  unfold wait_for_selection_step
  simp only []
  split
  · split <;> simp
  · split <;> simp [List.countP_append, hfix]
  · simp [List.countP_append, hfix]

/-- `apply_refinements` never contributes a design-generation error entry. -/
theorem countP_designErr_refinements (env : Env) (store : Store) (state : WorkflowState) :
    (apply_refinements_step env store state).2.errors.countP (fun x => designErr x) =
      state.errors.countP (fun x => designErr x) := by
  have hfix : designErr "Refinement failed: request has no get" = false := by decide
  unfold apply_refinements_step
  simp only []
  split
  · split
    · simp
    · split
      · simp
      · simp [List.countP_append,
          designErr_other_prefix "Refinement failed: " _ (by decide) (by decide)]
  · simp
  · split <;> simp [List.countP_append, hfix]

/-- The refinement loop never contributes a design-generation error entry. -/
theorem countP_designErr_loop (env : Env) :
    ∀ (fuel : Nat) (store : Store) (state : WorkflowState),
      (refinement_loop env fuel store state).2.errors.countP (fun x => designErr x) =
        state.errors.countP (fun x => designErr x) := by
  intro fuel
  induction fuel with
  | zero => intro store state; rfl
  | succ fuel ih =>
    intro store state
    unfold refinement_loop
    split
    · rw [ih]
      rw [countP_designErr_wait, countP_designErr_refinements]
    · rfl

/-- `generate_diagram` never contributes a design-generation error entry. -/
theorem countP_designErr_diagram (env : Env) (store : Store) (state : WorkflowState) :
    (generate_diagram_step env store state).2.errors.countP (fun x => designErr x) =
      state.errors.countP (fun x => designErr x) := by
  unfold generate_diagram_step
  simp only []
  cases hc : env.generate_diagram (env.dumps (store_load store "selected_option_data"))
  · simp [List.countP_append,
      designErr_other_prefix "Diagram generation failed: " _ (by decide) (by decide)]
  · simp

/-- `generate_staffing` never contributes a design-generation error entry. -/
theorem countP_designErr_staffing (env : Env) (store : Store) (state : WorkflowState) :
    (generate_staffing_step env store state).2.errors.countP (fun x => designErr x) =
      state.errors.countP (fun x => designErr x) := by
  unfold generate_staffing_step
  simp only []
  cases hc : env.generate_plan (env.dumps (store_load store "selected_option_data"))
  · simp [List.countP_append,
      designErr_other_prefix "Staffing generation failed: " _ (by decide) (by decide)]
  · simp

/-- `finalize` leaves the error list untouched. -/
theorem finalize_errors (store : Store) (state : WorkflowState) :
    (finalize_step store state).2.errors = state.errors := rfl

/-- Claim C3: when the design handler raises on every input, the run is not
aborted: the exception is caught at the step boundary, exactly one error
entry attributable to `generate_designs` ends up in the terminal state, the
engine still reaches `finalize`, and `run` returns the terminal state (the
embedding's `run_workflow` is total — no exception escapes). -/
theorem run_continues_after_design_failure (env : Env) (fuel : Nat) (store : Store)
    (doc sid aid mid : String) (meta : Option (List (String × String)))
    (hfail : ∀ v, ∃ e, env.generate_options v = Except.error e) :
    (run_workflow env fuel store doc sid aid mid meta).2.current_step = "finalize" ∧
    (run_workflow env fuel store doc sid aid mid meta).2.errors.countP
      (fun x => designErr x) = 1 ∧
    (run_workflow env fuel store doc sid aid mid meta).2.messages.getLast? =
      some "Workflow completed successfully" := by
  unfold run_workflow
  obtain ⟨a1, s1, h1⟩ : ∃ a s, extract_requirements_step env store
      (initial_state doc sid aid mid meta) = (a, s) := ⟨_, _, rfl⟩
  obtain ⟨a2, s2, h2⟩ : ∃ a s, generate_designs_step env a1 s1 = (a, s) := ⟨_, _, rfl⟩
  obtain ⟨a3, s3, h3⟩ : ∃ a s, compare_options_step env a2 s2 = (a, s) := ⟨_, _, rfl⟩
  obtain ⟨a4, s4, h4⟩ : ∃ a s, wait_for_selection_step env a3 s3 = (a, s) := ⟨_, _, rfl⟩
  obtain ⟨a5, s5, h5⟩ : ∃ a s, refinement_loop env fuel a4 s4 = (a, s) := ⟨_, _, rfl⟩
  obtain ⟨a6, s6, h6⟩ : ∃ a s, generate_diagram_step env a5 s5 = (a, s) := ⟨_, _, rfl⟩
  obtain ⟨a7, s7, h7⟩ : ∃ a s, generate_staffing_step env a6 s6 = (a, s) := ⟨_, _, rfl⟩
  have c1 : s1.errors.countP (fun x => designErr x) = 0 := by
    have h := countP_designErr_extract env store (initial_state doc sid aid mid meta)
    rw [h1] at h
    simpa [initial_state] using h
  obtain ⟨e2, he2⟩ := hfail (store_load a1 "requirements_markdown")
  have c2 : s2.errors.countP (fun x => designErr x) = 1 := by
    have h := countP_designErr_designs_fail env a1 s1 e2 he2
    rw [h2] at h
    simpa [c1] using h
  have c3 : s3.errors.countP (fun x => designErr x) = 1 := by
    have h := countP_designErr_compare env a2 s2
    rw [h3] at h
    simpa [c2] using h
  have c4 : s4.errors.countP (fun x => designErr x) = 1 := by
    have h := countP_designErr_wait env a3 s3
    rw [h4] at h
    simpa [c3] using h
  have c5 : s5.errors.countP (fun x => designErr x) = 1 := by
    have h := countP_designErr_loop env fuel a4 s4
    rw [h5] at h
    simpa [c4] using h
  have c6 : s6.errors.countP (fun x => designErr x) = 1 := by
    have h := countP_designErr_diagram env a5 s5
    rw [h6] at h
    simpa [c5] using h
  have c7 : s7.errors.countP (fun x => designErr x) = 1 := by
    have h := countP_designErr_staffing env a6 s6
    rw [h7] at h
    simpa [c6] using h
  simp only [h1, h2, h3, h4, h5, h6, h7]
  refine ⟨rfl, ?_, ?_⟩
  · rw [finalize_errors]
    exact c7
  · simp [finalize_step, List.getLast?_concat]

/-- Claim C3, witness: the always-failing environment still reaches
`finalize` with exactly one design-generation error entry. -/
theorem run_continues_after_design_failure_witness :
    (run_workflow env_fail 3 [] "doc" "s" "a" "m" Option.none).2.current_step = "finalize" ∧
    (run_workflow env_fail 3 [] "doc" "s" "a" "m" Option.none).2.errors.countP
      (fun x => designErr x) = 1 :=
  ⟨(run_continues_after_design_failure env_fail 3 [] "doc" "s" "a" "m" Option.none
      (fun _ => ⟨"boom", rfl⟩)).1,
   (run_continues_after_design_failure env_fail 3 [] "doc" "s" "a" "m" Option.none
      (fun _ => ⟨"boom", rfl⟩)).2.1⟩

/-- The refinement loop is the identity when the refinement flag is down:
`_should_refine` answers `proceed`, so the graph goes straight to
`generate_diagram`. -/
theorem refinement_loop_skip (env : Env) (fuel : Nat) (store : Store) (state : WorkflowState)
    (h : state.refinement_requested = false) :
    refinement_loop env fuel store state = (store, state) := by
  cases fuel
  · rfl
  · unfold refinement_loop
    simp [should_refine, h]

/-- Claim C7: on a fresh scope (empty session store) with every collaborator
succeeding, `run` produces exactly the seven progress messages, in pipeline
order — extraction, design generation, comparison, auto-selection, diagram,
staffing, finalization — and ends with `current_step = "finalize"`. -/
theorem run_end_to_end_messages (env : Env) (fuel : Nat)
    (doc sid aid mid : String) (meta : Option (List (String × String)))
    (req : SystemRequirements) (opts : List ArchitectureOption)
    (comp : CompareAgentOutput) (code : String) (plan : Value)
    (hex : ∀ d s, env.extract_requirements d s = Except.ok req)
    (hgen : ∀ v, env.generate_options v = Except.ok opts)
    (hcomp : ∀ v, env.compare_options v = Except.ok comp)
    (hdia : ∀ s, env.generate_diagram s = Except.ok code)
    (hplan : ∀ s, env.generate_plan s = Except.ok plan) :
    (run_workflow env fuel [] doc sid aid mid meta).2.messages =
      ["Requirements extracted via Gateway and saved to memory",
       "Generated " ++ toString opts.length ++ " architecture options",
       "Recommended: " ++ comp.recommended_option,
       "Auto-selected recommended option: " ++ comp.recommended_option,
       "Diagram generated",
       "Staffing plan generated",
       "Workflow completed successfully"] ∧
    (run_workflow env fuel [] doc sid aid mid meta).2.current_step = "finalize" := by
  unfold run_workflow extract_requirements_step generate_designs_step compare_options_step
    wait_for_selection_step generate_diagram_step generate_staffing_step finalize_step
  simp [initial_state, hex, hgen, hcomp, hdia, hplan, store_load_save, store_find_save,
    store_load, store_find, store_save, truthy, pyStr, should_refine, refinement_loop_skip]

/-- An environment in which every external collaborator call succeeds with a
fixed value. -/
def env_ok : Env :=
  { extract_requirements := fun _ _ =>
      Except.ok { functional_requirements := ["f1"], project_summary := "p" }
    format_requirements_to_markdown := fun _ => "md"
    generate_options := fun _ => Except.ok [{ name := "Balanced", fields := [] }]
    dumps_options := fun _ => "json"
    compare_options := fun _ => Except.ok { recommended_option := "Balanced", fields := [] }
    refine := fun _ _ _ => Except.ok ("arch", "summary")
    generate_diagram := fun _ => Except.ok "graph TD"
    dumps := fun _ => "json"
    render_diagram := fun _ _ => Except.ok "diagram.png"
    generate_plan := fun _ => Except.ok (Value.plan []) }

/-- Claim C7, witness: a concrete all-success run on a fresh scope ends at
`finalize`. -/
theorem run_end_to_end_messages_witness :
    (run_workflow env_ok 2 [] "doc" "s" "a" "m" Option.none).2.current_step = "finalize" :=
  (run_end_to_end_messages env_ok 2 "doc" "s" "a" "m" Option.none
    { functional_requirements := ["f1"], project_summary := "p" }
    [{ name := "Balanced", fields := [] }]
    { recommended_option := "Balanced", fields := [] } "graph TD" (Value.plan [])
    (fun _ _ => rfl) (fun _ => rfl) (fun _ => rfl) (fun _ => rfl) (fun _ => rfl)).2
